import Mathlib

/-!
Verification of the change-detection core of the
Urban_flood_inundation_mapping_with_Sentinel-1_SAR repository.

The embedding below follows `src/data/flood_detection.py` and the pure
statistics part of `src/service/app.py`.  Grids (numpy 2-D arrays) are
modelled as lists of row lists; floating-point samples are modelled as
exact rationals extended with a NaN element (`F.nan`), which reproduces
the two IEEE behaviours the code relies on: NaN propagates through
subtraction, and any ordered comparison with NaN is false.
-/

/-- A floating-point sample: either NaN or an exact (rational) value. -/
inductive F where
  | nan : F
  | val : ℚ → F
deriving DecidableEq, Repr

/-- Subtraction of samples; NaN in either operand propagates (IEEE). -/
def F.sub : F → F → F
  | .val x, .val y => .val (x - y)
  | _, _ => .nan

/-- The comparison `x > t` used by the thresholding step; false on NaN (IEEE). -/
def F.gt : F → ℚ → Bool
  | .val x, t => decide (t < x)
  | .nan, _ => false

/-- A 2-D grid, row-major, mirroring a numpy 2-D array. -/
abbrev Grid (α : Type) := List (List α)

/-- The numpy `shape` of a 2-D grid: (rows, cols), cols read off the first row. -/
def gshape {α : Type} (g : Grid α) : ℕ × ℕ :=
  (g.length, (g.head?.map List.length).getD 0)

/-- Cell access with an out-of-range default, for stating pointwise facts. -/
def cellF (g : Grid F) (i j : ℕ) : F :=
  ((g[i]?.bind fun r => r[j]?).getD (F.val 0))

/-- Cell access for natural-number grids (masks). -/
def cellN (g : Grid ℕ) (i j : ℕ) : ℕ :=
  ((g[i]?.bind fun r => r[j]?).getD 0)

/-- numpy broadcast compatibility of two 2-D shapes: in each dimension the
sizes agree or one of them is 1. -/
def bcCompat (s1 s2 : ℕ × ℕ) : Bool :=
  (s1.1 == s2.1 || s1.1 == 1 || s2.1 == 1) && (s1.2 == s2.2 || s1.2 == 1 || s2.2 == 1)

/-- Index adjustment for a broadcast dimension: a length-1 dimension is read
at index 0 whatever the target index is. -/
def bidx (n i : ℕ) : ℕ := if n = 1 then 0 else i

/-- Elementwise numpy subtraction `a - b` of two 2-D arrays, including
numpy's broadcasting rules; raises (returns `.error`) exactly when the two
shapes are not broadcast-compatible. -/
def npSub (a b : Grid F) : Except String (Grid F) :=
  let s1 := gshape a
  let s2 := gshape b
  if bcCompat s1 s2 then
    let r := if s1.1 = 1 then s2.1 else s1.1
    let c := if s1.2 = 1 then s2.2 else s1.2
    .ok ((List.range r).map fun i => (List.range c).map fun j =>
      F.sub (cellF a (bidx s1.1 i) (bidx s1.2 j)) (cellF b (bidx s2.1 i) (bidx s2.2 j)))
  else
    .error "operands could not be broadcast together"

/-- `change_detection` from `src/data/flood_detection.py`:
`change = dry_image - flood_image`, `flood_mask = (change > threshold)`
cast to 0/1, returning `(flood_mask, change)`. -/
def change_detection (dry_image flood_image : Grid F) (threshold : ℚ) :
    Except String (Grid ℕ × Grid F) :=
  match npSub dry_image flood_image with
  | .error e => .error e
  | .ok change =>
      .ok (change.map fun row => row.map fun x => if F.gt x threshold then 1 else 0, change)

example :
    change_detection [[F.val 1, F.val 2], [F.val 3, F.val 4]] [[F.val 1, F.val 1]] 0 =
      .ok ([[0, 1], [1, 1]], [[F.val 0, F.val 1], [F.val 2, F.val 3]]) := by with_unfolding_all rfl

example :
    change_detection [[F.val 1]] [[F.val 1, F.val 2], [F.val 3, F.val 4]] 0 =
      .ok ([[0, 0], [0, 0]], [[F.val 0, F.val (-1)], [F.val (-2), F.val (-3)]]) := by with_unfolding_all rfl

example : ∃ e, change_detection [[F.val 1], [F.val 2]] [[F.val 1], [F.val 2], [F.val 3]] 0 = .error e :=
  ⟨_, rfl⟩

example :
    change_detection [[F.nan, F.val 10]] [[F.val 1, F.val 2]] 3 =
      .ok ([[0, 1]], [[F.nan, F.val 8]]) := by with_unfolding_all rfl

/-- A rasterio `Affine` geotransform: six coefficients `a b c d e f`;
`a` and `e` are the pixel scale coefficients used by the code. -/
structure Affine where
  a : ℝ
  b : ℝ
  c : ℝ
  d : ℝ
  e : ℝ
  f : ℝ

/-- `np.sum(mask == 1)`: the number of cells equal to 1. -/
def countPos (m : Grid ℕ) : ℕ := (m.flatten.filter fun v => v == 1).length

/-- `mask.size`: the total number of cells. -/
def totalPixels (m : Grid ℕ) : ℕ := m.flatten.length

/-- The record returned by `calculate_flood_area` (the keys of its dict).
`flood_ratio` is an `F` because numpy produces NaN (not an exception) for
the 0/0 arising from an empty mask. -/
structure AreaReport where
  flood_pixels : ℕ
  total_pixels : ℕ
  flood_ratio : F
  pixel_size_m : ℝ × ℝ
  flood_area_m2 : ℝ
  flood_area_km2 : ℝ
  flood_area_ha : ℝ

/-- `calculate_flood_area` from `src/data/flood_detection.py`: pixel sizes in
meters from the degree-valued transform scales (`lat_center = 37.55`
hardcoded, `m_per_deg_lat = 111320`,
`m_per_deg_lon = 111320 * cos(radians(37.55))`), pixel counts, ratio and
areas.  `np.radians x = x * π / 180`. -/
noncomputable def calculate_flood_area (flood_mask : Grid ℕ) (transform : Affine) :
    AreaReport :=
  let pixel_width_deg := |transform.a|
  let pixel_height_deg := |transform.e|
  let lat_center : ℝ := 37.55
  let m_per_deg_lat : ℝ := 111320
  let m_per_deg_lon : ℝ := 111320 * Real.cos (lat_center * Real.pi / 180)
  let pixel_width_m := pixel_width_deg * m_per_deg_lon
  let pixel_height_m := pixel_height_deg * m_per_deg_lat
  let pixel_area_m2 := pixel_width_m * pixel_height_m
  let flood_pixels := countPos flood_mask
  let total_pixels := totalPixels flood_mask
  let flood_area_m2 := (flood_pixels : ℝ) * pixel_area_m2
  { flood_pixels := flood_pixels
    total_pixels := total_pixels
    flood_ratio :=
      if total_pixels = 0 then F.nan
      else F.val ((flood_pixels : ℚ) / (total_pixels : ℚ))
    pixel_size_m := (pixel_width_m, pixel_height_m)
    flood_area_m2 := flood_area_m2
    flood_area_km2 := flood_area_m2 / 1000000
    flood_area_ha := flood_area_m2 / 10000 }

/-- The record returned by the dashboard's `load_flood_stats`. -/
structure FloodStats where
  flood_pixels : ℕ
  total_pixels : ℕ
  flood_ratio : ℚ
  flood_area_km2 : ℝ
  flood_area_ha : ℝ

/-- The statistics arithmetic of `load_flood_stats` from `src/service/app.py`,
applied to the mask grid and transform read from `flood_mask.tif` (the file
I/O that produces them is outside this embedding). -/
noncomputable def load_flood_stats (mask : Grid ℕ) (transform : Affine) : FloodStats :=
  let lat_center : ℝ := 37.55
  let m_per_deg_lat : ℝ := 111320
  let m_per_deg_lon : ℝ := 111320 * Real.cos (lat_center * Real.pi / 180)
  let pixel_width_m := |transform.a| * m_per_deg_lon
  let pixel_height_m := |transform.e| * m_per_deg_lat
  let pixel_area_m2 := pixel_width_m * pixel_height_m
  let flood_pixels := countPos mask
  let total_pixels := totalPixels mask
  { flood_pixels := flood_pixels
    total_pixels := total_pixels
    flood_ratio :=
      if 0 < total_pixels then (flood_pixels : ℚ) / (total_pixels : ℚ) else 0
    flood_area_km2 := (flood_pixels : ℝ) * pixel_area_m2 / 1000000
    flood_area_ha := (flood_pixels : ℝ) * pixel_area_m2 / 10000 }

/-- A concrete transform used for closed instances below. -/
noncomputable def sampleTransform : Affine := ⟨1, 0, 0, 0, 1, 0⟩

example : (calculate_flood_area [[1, 0], [0, 0]] sampleTransform).flood_ratio =
    F.val (1 / 4) := by with_unfolding_all decide

example : (calculate_flood_area [] sampleTransform).flood_ratio = F.nan := by
  with_unfolding_all decide

example : (load_flood_stats [] sampleTransform).flood_ratio = 0 := by
  with_unfolding_all decide

/-- Generic cell access with default. -/
def cellD {α : Type} (g : Grid α) (d : α) (i j : ℕ) : α :=
  (g[i]?.bind fun r => r[j]?).getD d

theorem cellF_eq_cellD (g : Grid F) (i j : ℕ) : cellF g i j = cellD g (F.val 0) i j := rfl

theorem cellN_eq_cellD (g : Grid ℕ) (i j : ℕ) : cellN g i j = cellD g 0 i j := rfl

theorem cellD_range_map {α : Type} (f : ℕ → ℕ → α) (d : α) {r c i j : ℕ}
    (hi : i < r) (hj : j < c) :
    cellD ((List.range r).map fun i => (List.range c).map fun j => f i j) d i j = f i j := by
  simp [cellD, List.getElem?_map, List.getElem?_range hi, List.getElem?_range hj]

theorem bcCompat_self (s : ℕ × ℕ) : bcCompat s s = true := by
  simp [bcCompat]

theorem bidx_eq_of_lt {n i : ℕ} (h : i < n) : bidx n i = i := by
  unfold bidx
  split
  · omega
  · rfl

/-- On equally-shaped inputs, `npSub` succeeds and is the pointwise
difference. -/
theorem npSub_eq_of_shape_eq (a b : Grid F) (h : gshape b = gshape a) :
    npSub a b = .ok ((List.range (gshape a).1).map fun i =>
      (List.range (gshape a).2).map fun j => F.sub (cellF a i j) (cellF b i j)) := by
  simp only [npSub, h, bcCompat_self, if_true, ite_self]
  refine congrArg _ (List.map_congr_left fun i hi => List.map_congr_left fun j hj => ?_)
  rw [bidx_eq_of_lt (List.mem_range.mp hi), bidx_eq_of_lt (List.mem_range.mp hj)]

/-- On equally-shaped inputs, `change_detection` succeeds; the change grid is
the pointwise difference and the mask its pointwise thresholding. -/
theorem change_detection_ok (dry flood : Grid F) (t : ℚ) (h : gshape flood = gshape dry) :
    change_detection dry flood t =
      .ok (((List.range (gshape dry).1).map fun i =>
              (List.range (gshape dry).2).map fun j =>
                if F.gt (F.sub (cellF dry i j) (cellF flood i j)) t then 1 else 0),
            (List.range (gshape dry).1).map fun i =>
              (List.range (gshape dry).2).map fun j =>
                F.sub (cellF dry i j) (cellF flood i j)) := by
  unfold change_detection
  rw [npSub_eq_of_shape_eq dry flood h]
  simp [List.map_map, Function.comp]

theorem F.sub_nan_left (y : F) : F.sub F.nan y = F.nan := by
  cases y <;> rfl

theorem F.sub_nan_right (x : F) : F.sub x F.nan = F.nan := by
  cases x <;> rfl

theorem F.gt_mono {x : F} {t1 t2 : ℚ} (ht : t1 ≤ t2) (h : F.gt x t2 = true) :
    F.gt x t1 = true := by
  cases x with
  | nan => simp [F.gt] at h
  | val v =>
      simp only [F.gt, decide_eq_true_eq] at h ⊢
      exact lt_of_le_of_lt ht h

/-- When the elementwise difference succeeds, `change_detection` thresholds it
pointwise into the mask and returns both. -/
theorem change_detection_of_npSub (dry flood : Grid F) (t : ℚ) (c : Grid F)
    (h : npSub dry flood = .ok c) :
    change_detection dry flood t =
      .ok (c.map fun row => row.map fun x => if F.gt x t then 1 else 0, c) := by
  unfold change_detection
  rw [h]

/-- Pointwise description of the successful result of `change_detection` on
equally-shaped grids, shared by several theorems below. -/
theorem change_detection_cells (dry flood : Grid F) (t : ℚ)
    (h : gshape flood = gshape dry) :
    ∃ mask change, change_detection dry flood t = .ok (mask, change) ∧
      ∀ i j, i < (gshape dry).1 → j < (gshape dry).2 →
        cellF change i j = F.sub (cellF dry i j) (cellF flood i j) ∧
        cellN mask i j = (if F.gt (cellF change i j) t then 1 else 0) := by
  refine ⟨_, _, change_detection_ok dry flood t h, fun i j hi hj => ?_⟩
  have hc : cellF ((List.range (gshape dry).1).map fun i =>
        (List.range (gshape dry).2).map fun j =>
          F.sub (cellF dry i j) (cellF flood i j)) i j =
      F.sub (cellF dry i j) (cellF flood i j) := by
    rw [cellF_eq_cellD]
    exact cellD_range_map (fun i j => F.sub (cellF dry i j) (cellF flood i j)) _ hi hj
  have hm : cellN ((List.range (gshape dry).1).map fun i =>
        (List.range (gshape dry).2).map fun j =>
          if F.gt (F.sub (cellF dry i j) (cellF flood i j)) t then 1 else 0) i j =
      (if F.gt (F.sub (cellF dry i j) (cellF flood i j)) t then 1 else 0) := by
    rw [cellN_eq_cellD]
    exact cellD_range_map
      (fun i j => if F.gt (F.sub (cellF dry i j) (cellF flood i j)) t then 1 else 0) _ hi hj
  exact ⟨hc, by rw [hm, hc]⟩

/-- C3: on every pair of equally-shaped grids and every threshold `t`,
`change_detection` computes `change = before - after` pointwise and sets the
mask cell to 1 exactly when the change cell is strictly greater than `t` and
to 0 otherwise; in particular a change cell exactly equal to `t` yields 0. -/
theorem change_detection_strict_threshold (dry flood : Grid F) (t : ℚ)
    (h : gshape flood = gshape dry) :
    ∃ mask change, change_detection dry flood t = .ok (mask, change) ∧
      ∀ i j, i < (gshape dry).1 → j < (gshape dry).2 →
        cellF change i j = F.sub (cellF dry i j) (cellF flood i j) ∧
        cellN mask i j = (if F.gt (cellF change i j) t then 1 else 0) ∧
        (cellF change i j = F.val t → cellN mask i j = 0) := by
  obtain ⟨mask, change, hok, hpt⟩ := change_detection_cells dry flood t h
  refine ⟨mask, change, hok, fun i j hi hj => ?_⟩
  obtain ⟨hc, hm⟩ := hpt i j hi hj
  refine ⟨hc, hm, fun he => ?_⟩
  rw [hm, he]
  simp [F.gt]

/-- Closed instance of `change_detection_strict_threshold`: a 1×2 grid whose
first change cell is strictly above the threshold and whose second sits
exactly at it. -/
theorem change_detection_strict_threshold_witness :
    gshape [[F.val 1, F.val 2]] = gshape [[F.val 5, F.val 5]] ∧
    ∃ mask change, change_detection [[F.val 5, F.val 5]] [[F.val 1, F.val 2]] 3 =
        .ok (mask, change) ∧
      ∀ i j, i < (gshape [[F.val 5, F.val 5]]).1 → j < (gshape [[F.val 5, F.val 5]]).2 →
        cellF change i j =
          F.sub (cellF [[F.val 5, F.val 5]] i j) (cellF [[F.val 1, F.val 2]] i j) ∧
        cellN mask i j = (if F.gt (cellF change i j) 3 then 1 else 0) ∧
        (cellF change i j = F.val 3 → cellN mask i j = 0) :=
  ⟨rfl, change_detection_strict_threshold [[F.val 5, F.val 5]] [[F.val 1, F.val 2]] 3 rfl⟩

/-- C5: on equally-shaped grids, a NaN cell in either input yields a NaN cell
of the change grid, which the mask classifies as 0 (not as a separate
no-data value). -/
theorem change_detection_nan_cells (dry flood : Grid F) (t : ℚ)
    (h : gshape flood = gshape dry) :
    ∃ mask change, change_detection dry flood t = .ok (mask, change) ∧
      ∀ i j, i < (gshape dry).1 → j < (gshape dry).2 →
        (cellF dry i j = F.nan ∨ cellF flood i j = F.nan) →
        cellF change i j = F.nan ∧ cellN mask i j = 0 := by
  obtain ⟨mask, change, hok, hpt⟩ := change_detection_cells dry flood t h
  refine ⟨mask, change, hok, fun i j hi hj hnan => ?_⟩
  obtain ⟨hc, hm⟩ := hpt i j hi hj
  have hcn : cellF change i j = F.nan := by
    rcases hnan with hd | hf
    · rw [hc, hd, F.sub_nan_left]
    · rw [hc, hf, F.sub_nan_right]
  refine ⟨hcn, ?_⟩
  rw [hm, hcn]
  simp [F.gt]

/-- Closed instance of `change_detection_nan_cells` on a 1×2 grid with a NaN
in the before image. -/
theorem change_detection_nan_cells_witness :
    gshape [[F.val 1, F.val 2]] = gshape [[F.nan, F.val 9]] ∧
    ∃ mask change, change_detection [[F.nan, F.val 9]] [[F.val 1, F.val 2]] 3 =
        .ok (mask, change) ∧
      ∀ i j, i < (gshape [[F.nan, F.val 9]]).1 → j < (gshape [[F.nan, F.val 9]]).2 →
        (cellF [[F.nan, F.val 9]] i j = F.nan ∨ cellF [[F.val 1, F.val 2]] i j = F.nan) →
        cellF change i j = F.nan ∧ cellN mask i j = 0 :=
  ⟨rfl, change_detection_nan_cells [[F.nan, F.val 9]] [[F.val 1, F.val 2]] 3 rfl⟩

/-- C8: for a fixed pair of equally-shaped grids and thresholds `t1 ≤ t2`,
the mask at `t2` has at most as many positive cells as the mask at `t1`;
both runs share the same change grid. -/
theorem countPos_antitone_in_threshold (dry flood : Grid F) (t1 t2 : ℚ)
    (hs : gshape flood = gshape dry) (ht : t1 ≤ t2) :
    ∃ m1 c m2, change_detection dry flood t1 = .ok (m1, c) ∧
      change_detection dry flood t2 = .ok (m2, c) ∧
      countPos m2 ≤ countPos m1 := by
  have hnp := npSub_eq_of_shape_eq dry flood hs
  refine ⟨_, _, _, change_detection_of_npSub dry flood t1 _ hnp,
    change_detection_of_npSub dry flood t2 _ hnp, ?_⟩
  set c : Grid F := (List.range (gshape dry).1).map fun i =>
    (List.range (gshape dry).2).map fun j => F.sub (cellF dry i j) (cellF flood i j) with hc
  have key : ∀ t : ℚ,
      countPos (c.map fun row => row.map fun x => if F.gt x t then 1 else 0) =
        c.flatten.countP fun x => F.gt x t := by
    intro t
    rw [countPos, ← List.countP_eq_length_filter, ← List.map_flatten, List.countP_map]
    refine List.countP_congr fun x _ => ?_
    cases hg : F.gt x t <;> simp [Function.comp, hg]
  rw [key t1, key t2]
  exact List.countP_mono_left fun x _ hx => F.gt_mono ht hx

/-- Closed instance of `countPos_antitone_in_threshold` at thresholds 3 ≤ 5. -/
theorem countPos_antitone_in_threshold_witness :
    gshape [[F.val 0, F.val 0]] = gshape [[F.val 10, F.val 4]] ∧ (3 : ℚ) ≤ 5 ∧
    ∃ m1 c m2,
      change_detection [[F.val 10, F.val 4]] [[F.val 0, F.val 0]] 3 = .ok (m1, c) ∧
      change_detection [[F.val 10, F.val 4]] [[F.val 0, F.val 0]] 5 = .ok (m2, c) ∧
      countPos m2 ≤ countPos m1 :=
  ⟨rfl, by norm_num,
    countPos_antitone_in_threshold [[F.val 10, F.val 4]] [[F.val 0, F.val 0]] 3 5 rfl
      (by norm_num)⟩

/-- C2 counterexample: a 2×2 'before' against a 1×2 'after' have different
shapes, yet `change_detection` silently broadcasts the second grid and
returns a result instead of failing. -/
theorem change_detection_broadcasts_counterexample :
    gshape [[F.val 1, F.val 2], [F.val 3, F.val 4]] ≠ gshape [[F.val 1, F.val 1]] ∧
    change_detection [[F.val 1, F.val 2], [F.val 3, F.val 4]] [[F.val 1, F.val 1]] 0 =
      .ok ([[0, 1], [1, 1]], [[F.val 0, F.val 1], [F.val 2, F.val 3]]) :=
  ⟨by decide, by with_unfolding_all rfl⟩

/-- C2 amended: `change_detection` surfaces a fatal error exactly when the two
shapes are not numpy-broadcast-compatible; on broadcast-compatible shapes
(equal or not) it silently returns a result. -/
theorem change_detection_shape_behaviour (dry flood : Grid F) (t : ℚ) :
    (bcCompat (gshape dry) (gshape flood) = false →
      change_detection dry flood t = .error "operands could not be broadcast together") ∧
    (bcCompat (gshape dry) (gshape flood) = true →
      ∃ mask change, change_detection dry flood t = .ok (mask, change)) := by
  constructor
  · intro h
    unfold change_detection npSub
    simp [h]
  · intro h
    cases hnp : npSub dry flood with
    | error e =>
        exfalso
        unfold npSub at hnp
        simp [h] at hnp
    | ok c => exact ⟨_, _, change_detection_of_npSub dry flood t c hnp⟩

/-- Closed instance of `change_detection_shape_behaviour`: 2×1 against 3×1 is
not broadcast-compatible and fails. -/
theorem change_detection_shape_behaviour_witness :
    bcCompat (gshape [[F.val 1], [F.val 2]]) (gshape [[F.val 1], [F.val 2], [F.val 3]]) =
      false ∧
    change_detection [[F.val 1], [F.val 2]] [[F.val 1], [F.val 2], [F.val 3]] 0 =
      .error "operands could not be broadcast together" :=
  ⟨by decide, (change_detection_shape_behaviour _ _ 0).1 (by decide)⟩

/-- The 4×4 'before' grid of the concrete spec scenario: every cell −10.0. -/
def before4 : Grid F :=
  [[F.val (-10), F.val (-10), F.val (-10), F.val (-10)],
   [F.val (-10), F.val (-10), F.val (-10), F.val (-10)],
   [F.val (-10), F.val (-10), F.val (-10), F.val (-10)],
   [F.val (-10), F.val (-10), F.val (-10), F.val (-10)]]

/-- The 4×4 'after' grid: −10.0 except a 2×2 block set to −20.0. -/
def after4 : Grid F :=
  [[F.val (-10), F.val (-10), F.val (-10), F.val (-10)],
   [F.val (-10), F.val (-20), F.val (-20), F.val (-10)],
   [F.val (-10), F.val (-20), F.val (-20), F.val (-10)],
   [F.val (-10), F.val (-10), F.val (-10), F.val (-10)]]

/-- The resulting change grid: 0 everywhere except the 2×2 block at 10.0. -/
def change4 : Grid F :=
  [[F.val 0, F.val 0, F.val 0, F.val 0],
   [F.val 0, F.val 10, F.val 10, F.val 0],
   [F.val 0, F.val 10, F.val 10, F.val 0],
   [F.val 0, F.val 0, F.val 0, F.val 0]]

/-- The resulting mask: positive exactly on the 2×2 block. -/
def mask4 : Grid ℕ :=
  [[0, 0, 0, 0],
   [0, 1, 1, 0],
   [0, 1, 1, 0],
   [0, 0, 0, 0]]

/-- C1: the concrete 4×4 scenario: `change_detection` at threshold 3.0 yields
the change grid that is 0 outside the 2×2 block and 10.0 on it, the mask
positive exactly there (4 positive cells), and `calculate_flood_area` on that
mask reports a flood ratio of exactly 0.25 for any transform. -/
theorem scenario_4x4 :
    change_detection before4 after4 3 = .ok (mask4, change4) ∧
    countPos mask4 = 4 ∧
    ∀ transform : Affine,
      (calculate_flood_area mask4 transform).flood_ratio = F.val (1 / 4) := by
  refine ⟨by with_unfolding_all rfl, by rfl, fun transform => ?_⟩
  have h1 : countPos mask4 = 4 := rfl
  have h2 : totalPixels mask4 = 16 := rfl
  simp only [calculate_flood_area, h1, h2, F.val.injEq]
  norm_num

/-- C4 counterexample: on a zero-sized mask `calculate_flood_area` yields a
NaN flood ratio (numpy's 0/0), not 0.0. -/
theorem empty_mask_ratio_counterexample :
    totalPixels ([] : Grid ℕ) = 0 ∧
    (calculate_flood_area [] sampleTransform).flood_ratio = F.nan ∧
    F.nan ≠ F.val 0 :=
  ⟨rfl, by with_unfolding_all decide, by decide⟩

/-- C4 amended: on a zero-sized mask the dashboard's `load_flood_stats`
returns ratio 0 while `calculate_flood_area` produces NaN; on any mask with
at least one pixel both return `positive / total`. -/
theorem flood_ratio_zero_division (mask : Grid ℕ) (transform : Affine) :
    (totalPixels mask = 0 →
      (calculate_flood_area mask transform).flood_ratio = F.nan ∧
      (load_flood_stats mask transform).flood_ratio = 0) ∧
    (0 < totalPixels mask →
      (calculate_flood_area mask transform).flood_ratio =
        F.val ((countPos mask : ℚ) / (totalPixels mask : ℚ)) ∧
      (load_flood_stats mask transform).flood_ratio =
        (countPos mask : ℚ) / (totalPixels mask : ℚ)) := by
  constructor
  · intro h
    constructor <;> simp [calculate_flood_area, load_flood_stats, h]
  · intro h
    constructor <;>
      simp [calculate_flood_area, load_flood_stats, h, Nat.pos_iff_ne_zero.mp h]

/-- Closed instance of `flood_ratio_zero_division` on a nonempty mask. -/
theorem flood_ratio_zero_division_witness :
    0 < totalPixels [[1, 0]] ∧
    (calculate_flood_area [[1, 0]] sampleTransform).flood_ratio =
      F.val ((countPos [[1, 0]] : ℚ) / (totalPixels [[1, 0]] : ℚ)) ∧
    (load_flood_stats [[1, 0]] sampleTransform).flood_ratio =
      (countPos [[1, 0]] : ℚ) / (totalPixels [[1, 0]] : ℚ) :=
  ⟨by decide, (flood_ratio_zero_division [[1, 0]] sampleTransform).2 (by decide)⟩

/-- C6 counterexample: the reference latitude is hardcoded at 37.55 inside
`calculate_flood_area`, not caller-supplied: for the unit transform the
computed pixel width disagrees with the claimed formula read at a
caller-chosen reference latitude of 0. -/
theorem reference_latitude_counterexample :
    (calculate_flood_area [[1]] sampleTransform).pixel_size_m.1 ≠
      |sampleTransform.a| * (111320 * Real.cos (0 * Real.pi / 180)) := by
  have hcos : Real.cos (37.55 * Real.pi / 180) < Real.cos 0 := by
    apply Real.cos_lt_cos_of_nonneg_of_le_pi le_rfl
    · nlinarith [Real.pi_pos]
    · positivity
  simp only [calculate_flood_area, sampleTransform, zero_mul, zero_div, Real.cos_zero,
    abs_one, one_mul]
  rw [Real.cos_zero] at hcos
  intro h
  nlinarith [h, hcos]

/-- C6 amended: `calculate_flood_area` derives the pixel size in meters from
the transform's degree scales using `m_per_deg_lat = 111320` and
`m_per_deg_lon = 111320 * cos(radians 37.55)` with the hardcoded reference
latitude 37.55, and returns `flood_area_m2 = flood_pixels * pixel_area_m2`,
`flood_area_km2 = flood_area_m2 / 1e6` and `flood_area_ha = flood_area_m2 / 1e4`. -/
theorem area_formulas (mask : Grid ℕ) (transform : Affine) :
    (calculate_flood_area mask transform).pixel_size_m =
      (|transform.a| * (111320 * Real.cos (37.55 * Real.pi / 180)),
       |transform.e| * 111320) ∧
    (calculate_flood_area mask transform).flood_pixels = countPos mask ∧
    (calculate_flood_area mask transform).flood_area_m2 =
      (countPos mask : ℝ) *
        ((|transform.a| * (111320 * Real.cos (37.55 * Real.pi / 180))) *
          (|transform.e| * 111320)) ∧
    (calculate_flood_area mask transform).flood_area_km2 =
      (calculate_flood_area mask transform).flood_area_m2 / 1000000 ∧
    (calculate_flood_area mask transform).flood_area_ha =
      (calculate_flood_area mask transform).flood_area_m2 / 10000 :=
  ⟨rfl, rfl, rfl, rfl, rfl⟩

/-- C10: on any mask with at least one pixel, the statistics arithmetic of
`calculate_flood_area` and of the dashboard's `load_flood_stats` agree on
every shared field. -/
theorem stats_agree (mask : Grid ℕ) (transform : Affine)
    (h : 0 < totalPixels mask) :
    (calculate_flood_area mask transform).flood_pixels =
      (load_flood_stats mask transform).flood_pixels ∧
    (calculate_flood_area mask transform).total_pixels =
      (load_flood_stats mask transform).total_pixels ∧
    (calculate_flood_area mask transform).flood_ratio =
      F.val ((load_flood_stats mask transform).flood_ratio) ∧
    (calculate_flood_area mask transform).flood_area_km2 =
      (load_flood_stats mask transform).flood_area_km2 ∧
    (calculate_flood_area mask transform).flood_area_ha =
      (load_flood_stats mask transform).flood_area_ha := by
  refine ⟨rfl, rfl, ?_, rfl, rfl⟩
  simp [calculate_flood_area, load_flood_stats, h, Nat.pos_iff_ne_zero.mp h]

/-- Closed instance of `stats_agree` on a 1×2 mask. -/
theorem stats_agree_witness :
    0 < totalPixels [[1, 0]] ∧
    ((calculate_flood_area [[1, 0]] sampleTransform).flood_pixels =
        (load_flood_stats [[1, 0]] sampleTransform).flood_pixels ∧
      (calculate_flood_area [[1, 0]] sampleTransform).total_pixels =
        (load_flood_stats [[1, 0]] sampleTransform).total_pixels ∧
      (calculate_flood_area [[1, 0]] sampleTransform).flood_ratio =
        F.val ((load_flood_stats [[1, 0]] sampleTransform).flood_ratio) ∧
      (calculate_flood_area [[1, 0]] sampleTransform).flood_area_km2 =
        (load_flood_stats [[1, 0]] sampleTransform).flood_area_km2 ∧
      (calculate_flood_area [[1, 0]] sampleTransform).flood_area_ha =
        (load_flood_stats [[1, 0]] sampleTransform).flood_area_ha) :=
  ⟨by decide, stats_agree [[1, 0]] sampleTransform (by decide)⟩

/-- Integer-valued cell access (the mask is cast to int16 before tracing). -/
def cellZ (g : Grid ℤ) (i j : ℕ) : ℤ := cellD g 0 i j

/-- 4-neighbour adjacency of pixel coordinates (rasterio's default
connectivity for `shapes`). -/
def adj4 (p q : ℕ × ℕ) : Bool :=
  (p.1 == q.1 && (p.2 + 1 == q.2 || q.2 + 1 == p.2)) ||
  (p.2 == q.2 && (p.1 + 1 == q.1 || q.1 + 1 == p.1))

/-- Fuel-bounded region growing: repeatedly move into the region every
remaining pixel adjacent to it with the same value. -/
def growRegion (val : ℕ × ℕ → ℤ) : ℕ → List (ℕ × ℕ) → List (ℕ × ℕ) →
    List (ℕ × ℕ) × List (ℕ × ℕ)
  | 0, reg, rest => (reg, rest)
  | fuel + 1, reg, rest =>
      let canJoin : ℕ × ℕ → Bool := fun q => reg.any fun p => adj4 p q && (val p == val q)
      if rest.any canJoin then
        growRegion val fuel (reg ++ rest.filter canJoin) (rest.filter fun q => !(canJoin q))
      else
        (reg, rest)

/-- Fuel-bounded connected-component decomposition: peel off the component of
the first remaining pixel, labelled with that pixel's value. -/
def components (val : ℕ × ℕ → ℤ) : ℕ → List (ℕ × ℕ) → List (List (ℕ × ℕ) × ℤ)
  | 0, _ => []
  | _ + 1, [] => []
  | fuel + 1, p :: rest =>
      let grown := growRegion val (rest.length + 1) [p] rest
      (grown.1, val p) :: components val fuel grown.2

/-- All pixel coordinates of a grid, row-major. -/
def coordsOf {α : Type} (g : Grid α) : List (ℕ × ℕ) :=
  ((List.range (gshape g).1).map fun i =>
    (List.range (gshape g).2).map fun j => (i, j)).flatten

/-- `rasterio.features.shapes` on a 2-D int grid: one record per connected
region of constant value, labelled with that value; every pixel belongs to
some region.  Region geometries are abstracted to their pixel sets. -/
def shapesList (mask : Grid ℤ) : List (List (ℕ × ℕ) × ℤ) :=
  components (fun p => cellZ mask p.1 p.2) (coordsOf mask).length (coordsOf mask)

/-- `mask_to_vector` from `src/data/flood_detection.py`: cast the mask to
int, trace its regions with `shapes`, and keep only the records whose traced
value equals 1 (`if value == 1`); the polygon/CRS construction on the kept
records is not modelled. -/
def mask_to_vector (flood_mask : Grid ℕ) : List (List (ℕ × ℕ) × ℤ) :=
  (shapesList (flood_mask.map fun row => row.map fun (v : ℕ) => (v : ℤ))).filter
    fun r => r.2 == 1

theorem growRegion_rest_mem (val : ℕ × ℕ → ℤ) :
    ∀ (fuel : ℕ) (reg rest : List (ℕ × ℕ)) (q : ℕ × ℕ),
      q ∈ (growRegion val fuel reg rest).2 → q ∈ rest := by
  intro fuel
  induction fuel with
  | zero => intro reg rest q hq; exact hq
  | succ n ih =>
      intro reg rest q hq
      unfold growRegion at hq
      by_cases ha : rest.any (fun q => reg.any fun p => adj4 p q && (val p == val q)) = true
      · rw [if_pos ha] at hq
        have := ih _ _ _ hq
        exact (List.mem_filter.mp this).1
      · rw [if_neg ha] at hq
        exact hq

theorem components_value_mem (val : ℕ × ℕ → ℤ) :
    ∀ (fuel : ℕ) (l : List (ℕ × ℕ)) (x : List (ℕ × ℕ) × ℤ),
      x ∈ components val fuel l → x.2 ∈ l.map val := by
  intro fuel
  induction fuel with
  | zero => intro l x hx; simp [components] at hx
  | succ n ih =>
      intro l x hx
      cases l with
      | nil => simp [components] at hx
      | cons p rest =>
          unfold components at hx
          rcases List.mem_cons.mp hx with h1 | h2
          · subst h1
            exact List.mem_map.mpr ⟨p, List.mem_cons_self p rest, rfl⟩
          · have hv := ih _ _ h2
            obtain ⟨q, hq, hqv⟩ := List.mem_map.mp hv
            have hq' : q ∈ rest := growRegion_rest_mem val _ _ _ _ hq
            exact List.mem_map.mpr ⟨q, List.mem_cons_of_mem p hq', hqv⟩

theorem mem_coordsOf {α : Type} (g : Grid α) (p : ℕ × ℕ) (hp : p ∈ coordsOf g) :
    p.1 < (gshape g).1 ∧ p.2 < (gshape g).2 := by
  unfold coordsOf at hp
  rw [List.mem_flatten] at hp
  obtain ⟨l, hl, hpl⟩ := hp
  obtain ⟨i, hi, rfl⟩ := List.mem_map.mp hl
  obtain ⟨j, hj, rfl⟩ := List.mem_map.mp hpl
  exact ⟨List.mem_range.mp hi, List.mem_range.mp hj⟩

theorem cellZ_intCast (m : Grid ℕ) (i j : ℕ) :
    cellZ (m.map fun row => row.map fun (v : ℕ) => (v : ℤ)) i j = (cellN m i j : ℤ) := by
  unfold cellZ cellN cellD
  rw [List.getElem?_map (fun row => row.map fun (v : ℕ) => (v : ℤ)) m i]
  cases hm : m[i]? with
  | none =>
      simp only [Option.map_none', Option.none_bind, Option.getD_none]
      rfl
  | some row =>
      simp only [Option.map_some', Option.some_bind]
      rw [List.getElem?_map (fun (v : ℕ) => (v : ℤ)) row j]
      cases hr : row[j]? with
      | none =>
          simp only [Option.map_none', Option.getD_none]
          rfl
      | some v =>
          simp only [Option.map_some', Option.getD_some]

/-- C7: `mask_to_vector` returns the empty collection (not an error) on a
mask with no positive pixel, and every record it ever emits comes from a
region whose traced value equals 1. -/
theorem mask_to_vector_spec (flood_mask : Grid ℕ) :
    ((∀ i j, i < (gshape flood_mask).1 → j < (gshape flood_mask).2 →
        cellN flood_mask i j ≠ 1) → mask_to_vector flood_mask = []) ∧
    (∀ r ∈ mask_to_vector flood_mask, r.2 = 1) := by
  constructor
  · intro h
    unfold mask_to_vector
    rw [List.filter_eq_nil_iff]
    intro x hx
    have hv := components_value_mem _ _ _ _ hx
    obtain ⟨p, hp, hpv⟩ := List.mem_map.mp hv
    have hb := mem_coordsOf _ p hp
    have hmap : gshape (flood_mask.map fun row => row.map fun (v : ℕ) => (v : ℤ)) =
        gshape flood_mask := by
      unfold gshape
      cases flood_mask with
      | nil => rfl
      | cons r l => simp
    rw [hmap] at hb
    have hne := h p.1 p.2 hb.1 hb.2
    rw [cellZ_intCast] at hpv
    simp only [beq_iff_eq]
    rw [← hpv]
    intro hcontra
    exact hne (by exact_mod_cast hcontra)
  · intro r hr
    have := (List.mem_filter.mp hr).2
    exact beq_iff_eq.mp this

/-- Closed instances of `mask_to_vector_spec`: the all-zero 2×2 mask
vectorizes to the empty collection, and the sole record emitted for the mask
`[[0, 1]]` has value 1. -/
theorem mask_to_vector_spec_witness :
    mask_to_vector [[0, 0], [0, 0]] = [] ∧
    ([((0, 1) : ℕ × ℕ)], (1 : ℤ)) ∈ mask_to_vector [[0, 1]] ∧
    (([((0, 1) : ℕ × ℕ)], (1 : ℤ)) : List (ℕ × ℕ) × ℤ).2 = 1 :=
  ⟨(mask_to_vector_spec [[0, 0], [0, 0]]).1
      (by
        intro i j hi hj
        have hi2 : i < 2 := hi
        have hj2 : j < 2 := hj
        interval_cases i <;> interval_cases j <;> decide),
    by decide,
    (mask_to_vector_spec [[0, 1]]).2 ([((0, 1) : ℕ × ℕ)], (1 : ℤ)) (by decide)⟩

/-- Modelled from the spec: one channel of the Overlay Renderer's alpha
blend, `alpha*base + (1-alpha)*color`, clipped to [0,255] and truncated to an
8-bit integer (§4.4); no implementation of this component exists under src/. -/
def blendChannel (alpha : ℚ) (b c : ℕ) : ℕ :=
  (⌊max 0 (min 255 (alpha * (b : ℚ) + (1 - alpha) * (c : ℚ)))⌋).toNat

/-- Modelled from the spec: the Overlay Renderer (§4.4), absent from src/.
`overlay(base_image, mask, color, alpha)` blends the RGB color into the
single-channel base at mask==1 cells and broadcasts the base value to three
channels elsewhere; a base/mask shape mismatch is a fatal input error. -/
def overlay (base_image : Grid ℕ) (mask : Grid ℕ) (color : ℕ × ℕ × ℕ) (alpha : ℚ) :
    Except String (Grid (ℕ × ℕ × ℕ)) :=
  if gshape base_image = gshape mask then
    .ok ((List.range (gshape base_image).1).map fun i =>
      (List.range (gshape base_image).2).map fun j =>
        if cellN mask i j = 1 then
          (blendChannel alpha (cellN base_image i j) color.1,
           blendChannel alpha (cellN base_image i j) color.2.1,
           blendChannel alpha (cellN base_image i j) color.2.2)
        else
          (cellN base_image i j, cellN base_image i j, cellN base_image i j))
  else
    .error "base image and mask have different dimensions"

theorem blendChannel_zero (b c : ℕ) (hc : c ≤ 255) : blendChannel 0 b c = c := by
  unfold blendChannel
  have h1 : (0 : ℚ) * (b : ℚ) + (1 - 0) * (c : ℚ) = (c : ℚ) := by ring
  rw [h1]
  have h2 : min (255 : ℚ) (c : ℚ) = (c : ℚ) := min_eq_right (by exact_mod_cast hc)
  have h3 : max (0 : ℚ) (c : ℚ) = (c : ℚ) := max_eq_right (by positivity)
  rw [h2, h3, Int.floor_natCast, Int.toNat_natCast]

theorem blendChannel_one (b c : ℕ) (hb : b ≤ 255) : blendChannel 1 b c = b := by
  unfold blendChannel
  have h1 : (1 : ℚ) * (b : ℚ) + (1 - 1) * (c : ℚ) = (b : ℚ) := by ring
  rw [h1]
  have h2 : min (255 : ℚ) (b : ℚ) = (b : ℚ) := min_eq_right (by exact_mod_cast hb)
  have h3 : max (0 : ℚ) (b : ℚ) = (b : ℚ) := max_eq_right (by positivity)
  rw [h2, h3, Int.floor_natCast, Int.toNat_natCast]

/-- C9: `overlay` blends only at mask==1 cells and keeps the base elsewhere;
with `alpha = 0` every masked pixel equals exactly the overlay color (8-bit
channels), with `alpha = 1` every masked pixel equals exactly the base value
(base samples in [0,255]). -/
theorem overlay_blend (base_image mask : Grid ℕ) (color : ℕ × ℕ × ℕ) (alpha : ℚ)
    (h : gshape base_image = gshape mask) :
    ∃ out, overlay base_image mask color alpha = .ok out ∧
      ∀ i j, i < (gshape base_image).1 → j < (gshape base_image).2 →
        (cellN mask i j = 1 →
          cellD out (0, 0, 0) i j =
            (blendChannel alpha (cellN base_image i j) color.1,
             blendChannel alpha (cellN base_image i j) color.2.1,
             blendChannel alpha (cellN base_image i j) color.2.2)) ∧
        (cellN mask i j ≠ 1 →
          cellD out (0, 0, 0) i j =
            (cellN base_image i j, cellN base_image i j, cellN base_image i j)) ∧
        (alpha = 0 → cellN mask i j = 1 →
          color.1 ≤ 255 → color.2.1 ≤ 255 → color.2.2 ≤ 255 →
          cellD out (0, 0, 0) i j = color) ∧
        (alpha = 1 → cellN mask i j = 1 → cellN base_image i j ≤ 255 →
          cellD out (0, 0, 0) i j =
            (cellN base_image i j, cellN base_image i j, cellN base_image i j)) := by
  refine ⟨(List.range (gshape base_image).1).map fun i =>
      (List.range (gshape base_image).2).map fun j =>
        if cellN mask i j = 1 then
          (blendChannel alpha (cellN base_image i j) color.1,
           blendChannel alpha (cellN base_image i j) color.2.1,
           blendChannel alpha (cellN base_image i j) color.2.2)
        else
          (cellN base_image i j, cellN base_image i j, cellN base_image i j),
    ?_, fun i j hi hj => ?_⟩
  · unfold overlay
    rw [if_pos h]
  · have hout : cellD ((List.range (gshape base_image).1).map fun i =>
        (List.range (gshape base_image).2).map fun j =>
          if cellN mask i j = 1 then
            (blendChannel alpha (cellN base_image i j) color.1,
             blendChannel alpha (cellN base_image i j) color.2.1,
             blendChannel alpha (cellN base_image i j) color.2.2)
          else
            (cellN base_image i j, cellN base_image i j, cellN base_image i j))
        (0, 0, 0) i j =
        (if cellN mask i j = 1 then
          (blendChannel alpha (cellN base_image i j) color.1,
           blendChannel alpha (cellN base_image i j) color.2.1,
           blendChannel alpha (cellN base_image i j) color.2.2)
        else
          (cellN base_image i j, cellN base_image i j, cellN base_image i j)) :=
      cellD_range_map _ _ hi hj
    refine ⟨fun hm => ?_, fun hm => ?_, fun ha hm hc1 hc2 hc3 => ?_, fun ha hm hb => ?_⟩
    · rw [hout, if_pos hm]
    · rw [hout, if_neg hm]
    · subst ha
      rw [hout, if_pos hm, blendChannel_zero _ _ hc1, blendChannel_zero _ _ hc2,
        blendChannel_zero _ _ hc3]
    · subst ha
      rw [hout, if_pos hm, blendChannel_one _ _ hb, blendChannel_one _ _ hb,
        blendChannel_one _ _ hb]

/-- Closed instance of `overlay_blend`: a 1×1 base of value 10 under a fully
masked cell with `alpha = 0` and color (200, 30, 40). -/
theorem overlay_blend_witness :
    gshape [[10]] = gshape [[1]] ∧
    ∃ out, overlay [[10]] [[1]] (200, 30, 40) 0 = .ok out ∧
      ∀ i j, i < (gshape [[10]]).1 → j < (gshape [[10]]).2 →
        (cellN [[1]] i j = 1 →
          cellD out (0, 0, 0) i j =
            (blendChannel 0 (cellN [[10]] i j) 200,
             blendChannel 0 (cellN [[10]] i j) 30,
             blendChannel 0 (cellN [[10]] i j) 40)) ∧
        (cellN [[1]] i j ≠ 1 →
          cellD out (0, 0, 0) i j =
            (cellN [[10]] i j, cellN [[10]] i j, cellN [[10]] i j)) ∧
        ((0 : ℚ) = 0 → cellN [[1]] i j = 1 → (200 : ℕ) ≤ 255 → (30 : ℕ) ≤ 255 →
          (40 : ℕ) ≤ 255 → cellD out (0, 0, 0) i j = (200, 30, 40)) ∧
        ((0 : ℚ) = 1 → cellN [[1]] i j = 1 → cellN [[10]] i j ≤ 255 →
          cellD out (0, 0, 0) i j =
            (cellN [[10]] i j, cellN [[10]] i j, cellN [[10]] i j)) :=
  ⟨rfl, overlay_blend [[10]] [[1]] (200, 30, 40) 0 rfl⟩
